import Mathlib

/-!
Verification of the response-interpretation and knowledge-retrieval core of
the Pad-i conversational assistant (Go sources: `internal/llm/service.go`,
`internal/api/handlers.go`, `internal/db/sqlite.go`).

Modelling conventions:
* Go strings are modelled as Lean `String`; the byte-level operations used by
  the code (`strings.HasPrefix`, `strings.HasSuffix`, slicing with ASCII
  quote characters, `strings.TrimSpace`) agree with the character-level
  operations used here on the inputs that matter (the quote and whitespace
  characters involved are ASCII).
* `float64` values are modelled as exact rationals `ℚ`; `strconv.ParseFloat`
  is an explicit function parameter `pf : String → Option ℚ` (`none` models a
  parse error), so the theorems hold for every behaviour of the library
  parser, and concrete instantiations use values the real parser returns.
* Calls to external collaborators (the SQLite store, the completion
  provider, `encoding/json`) are modelled as explicit function parameters
  gathered in `Env`; `Except String` models Go's `error` returns, with the
  `fmt.Errorf` wrapping reproduced as string concatenation.
* A Go runtime panic is modelled as `none` in an `Option` result.
-/

namespace PadI

/-- `models.Message` (internal/models/conversation.go). `time.Time` is
abstracted to an integer timestamp; it takes part in no logic. -/
structure Msg where
  id : Int
  convID : Int
  role : String
  content : String
  createdAt : Int
  deriving DecidableEq, Repr

/-- `models.Conversation`. -/
structure Conversation where
  id : Int
  title : String
  createdAt : Int
  deriving DecidableEq, Repr

/-- `llm.StoreInfo`: the `store_info` object of the model's JSON reply. -/
structure StoreInfo where
  user_input : List String
  bot_response : List String
  deriving DecidableEq, Repr

/-- `llm.LLMResponse`: the declared JSON response shape. Go zero values for
the optional fields are the empty lists and the empty string. -/
structure LLMResponse where
  action : String
  content : String
  store_info : StoreInfo
  new_title : String
  deriving DecidableEq, Repr

/-- One row of `db.Database.SearchKnowledge`'s anonymous result struct. -/
structure Candidate where
  content : String
  conversationId : Int
  createdAt : Int
  deriving DecidableEq, Repr

/-- `llm.KnowledgeSearchResult`. -/
structure KnowledgeSearchResult where
  content : String
  relevance : ℚ
  createdAt : Int
  deriving DecidableEq, Repr

/-! ## Go string helpers -/

/-- Go's `s[lo:hi]` on a string (character-level; the code only slices at
ASCII quote boundaries). Callers must check `lo ≤ hi ∧ hi ≤ s.length`;
`goSlice` itself is the in-bounds value. -/
def goSlice (s : String) (lo hi : Nat) : String :=
  String.mk ((s.toList.drop lo).take (hi - lo))

/-- `unicode.IsSpace`: the White_Space code points Go's `strings.TrimSpace`
trims - ASCII spacing, NEL, NBSP, OGHAM SPACE MARK, the U+2000..U+200A
spaces, LINE/PARAGRAPH SEPARATOR, NARROW NO-BREAK SPACE, MEDIUM
MATHEMATICAL SPACE, and IDEOGRAPHIC SPACE. -/
def isGoSpace (c : Char) : Bool :=
  c = ' ' || c = '\t' || c = '\n' || c = '\x0b' || c = '\x0c' || c = '\r' ||
    c = '\u0085' || c = '\u00A0' || c = '\u1680' ||
    (0x2000 ≤ c.toNat && c.toNat ≤ 0x200A) ||
    c = '\u2028' || c = '\u2029' || c = '\u202F' || c = '\u205F' || c = '\u3000'

/-- `strings.TrimSpace`: drop leading and trailing whitespace. -/
def goTrimSpace (s : String) : String :=
  String.mk (((s.toList.dropWhile isGoSpace).reverse.dropWhile isGoSpace).reverse)

/-- `strings.HasPrefix`. -/
def goHasPrefix (s pre : String) : Bool :=
  pre.toList.isPrefixOf s.toList

/-- `strings.HasSuffix`. -/
def goHasSuffix (s suf : String) : Bool :=
  suf.toList.reverse.isPrefixOf s.toList.reverse

/-- A Go `for` loop appending `f x` to a string builder for each element:
`f x1 ++ f x2 ++ ... ++ f xn`. -/
def strConcatMap (f : α → String) : List α → String
  | [] => ""
  | a :: l => f a ++ strConcatMap f l

/-! ## Response Interpreter (`ProcessMessage`, service.go lines 166-191)

The two `encoding/json` calls are modelled by the parameters
`parsed : Option LLMResponse` (the outcome of `json.Unmarshal` into
`LLMResponse`; `none` is a parse error) and `inner : String → Option String`
(the outcome of unmarshalling the content into a map and reading a string
`content` field; `none` covers both an unmarshal error and a missing or
non-string field). -/

/-- The quote-stripping cleanup (service.go lines 186-191) applied to the
already-trimmed content `t`.  Go evaluates `t[1 : len(t)-1]`; when
`len(t) = 1` (i.e. `t` is a single `"` character, which satisfies both
`HasPrefix` and `HasSuffix`) that slice is `t[1:0]`, a runtime panic
(slice bounds out of range), modelled as `none`. -/
def stripSurroundingQuotes (t : String) : Option String :=
  if goHasPrefix t "\"" && goHasSuffix t "\"" then
    if 2 ≤ t.toList.length then some (goSlice t 1 (t.toList.length - 1)) else none
  else
    some t

/-- The Response Interpreter: JSON parse with reply fallback (lines 166-174),
inner-JSON unwrap (lines 175-184), whitespace trim and quote strip
(lines 186-191). `none` models the Go panic of the quote-stripping step. -/
def interpretResponse (parsed : Option LLMResponse) (inner : String → Option String)
    (completion : String) : Option LLMResponse :=
  let r : LLMResponse :=
    match parsed with
    | none =>
        -- "If JSON parsing fails, treat the entire completion as the content"
        { action := "reply", content := completion,
          store_info := ⟨[], []⟩, new_title := "" }
    | some r0 =>
        if goHasPrefix r0.content "\x7b" || goHasPrefix r0.content "[" then
          match inner r0.content with
          | some c => { r0 with content := c }
          | none => r0
        else r0
  let t := goTrimSpace r.content
  match stripSurroundingQuotes t with
  | none => none
  | some c => some { r with content := c }

/-! ## Relevance Scorer and Knowledge Retriever (`SearchKnowledge`,
service.go lines 53-96)

`pf : String → Option ℚ` models `strconv.ParseFloat(·, 64)` (`none` is a
parse error; a parsed `float64` is abstracted to the exact rational it
denotes).  `scorer` models `llms.GenerateFromSinglePrompt` for the relevance
prompts. -/

/-- The relevance prompt (service.go lines 63-69), with the raw Go string
literal's newlines and tab indentation reproduced. -/
def relevancePrompt (query content : String) : String :=
  "\n\t\tQuery: " ++ query ++
  "\n\t\t\n\t\tPotential relevant information: " ++ content ++
  "\n\t\t\n\t\tRate the relevance of this information to the query on a scale of 0.0 to 1.0." ++
  "\n\t\tRespond with only the number."

/-- The `sort.Slice` less-function `knowledgeResults[i].Relevance >
knowledgeResults[j].Relevance`, as the sortedness relation it produces:
non-increasing relevance. -/
def relDesc (a b : KnowledgeSearchResult) : Prop :=
  b.relevance ≤ a.relevance

instance : DecidableRel relDesc := fun a b =>
  inferInstanceAs (Decidable (b.relevance ≤ a.relevance))

instance : IsTotal KnowledgeSearchResult relDesc :=
  ⟨fun a b => le_total b.relevance a.relevance⟩

instance : IsTrans KnowledgeSearchResult relDesc :=
  ⟨fun _ _ _ h1 h2 => le_trans h2 h1⟩

/-- The per-candidate loop of `SearchKnowledge` (service.go lines 62-88):
one scorer call per candidate, in order; a scorer error aborts the whole
call wrapped as `failed to evaluate relevance`; an unparseable completion
scores `0.0`; only scores strictly above `0.3` are kept. -/
def scoreCandidates (pf : String → Option ℚ) (scorer : String → Except String String)
    (query : String) : List Candidate → Except String (List KnowledgeSearchResult)
  | [] => .ok []
  | c :: rest =>
    match scorer (relevancePrompt query c.content) with
    | .error e => .error ("failed to evaluate relevance: " ++ e)
    | .ok completion =>
      let relevance : ℚ := (pf (goTrimSpace completion)).getD 0
      match scoreCandidates pf scorer query rest with
      | .error e => .error e
      | .ok tail =>
        -- the Go literal 0.3, as the exact rational 3/10 (`mkRat` keeps the
        -- comparison kernel-computable)
        if mkRat 3 10 < relevance then
          .ok (⟨c.content, relevance, c.createdAt⟩ :: tail)
        else
          .ok tail

/-- `Service.SearchKnowledge` (service.go lines 53-96): store search, scoring
loop, then `sort.Slice` by descending relevance.  `sort.Slice` is not stable
and leaves the order of equal scores unspecified; `List.insertionSort` with
`relDesc` is one implementation satisfying its postcondition. -/
def searchKnowledge (dbSearch : String → Except String (List Candidate))
    (pf : String → Option ℚ) (scorer : String → Except String String)
    (query : String) : Except String (List KnowledgeSearchResult) :=
  match dbSearch query with
  | .error e => .error ("failed to search knowledge base: " ++ e)
  | .ok results =>
    match scoreCandidates pf scorer query results with
    | .error e => .error e
    | .ok knowledgeResults => .ok (List.insertionSort relDesc knowledgeResults)

/-! ## Context Assembler (`ProcessMessage`, service.go lines 108-155) -/

/-- The system-instruction block (service.go lines 109-137), transcribed
from the Go raw string literal; `\x7b`/`\x7d` are the literal braces and
`\x27` the apostrophe of the original text. -/
def systemPrompt : String :=
  String.intercalate "\n"
    [ "You are an AI assistant that can:",
      "\t1. Reply to users (action: \"reply\")",
      "\t2. Store important information in a knowledge base (action: \"store\")",
      "\t3. Search existing knowledge (action: \"search\")",
      "\t4. Create new conversations when topics change significantly (action: \"new_conversation\")",
      "",
      "\tWhen storing knowledge:",
      "\t- Only store specific, important facts or information",
      "\t- Extract and summarize the key information, don\x27t store entire conversations",
      "\t- Format the information clearly and concisely",
      "",
      "",
      "\tWhen the user asks about previous information or references past conversations,",
      "\tuse the \"reply\" action to respond using the conversation history and knowledge provided.",
      "\tOnly use \"search\" when explicitly asked to search for something.",
      "",
      "\tIMPORTANT: Your response must be a valid JSON object, but the \"content\" field should contain",
      "\tyour natural language response to the user, not JSON or technical details.",
      "",
      "\tRespond with a JSON object containing:",
      "\t\x7b",
      "\t\t\"action\": \"reply|store|search|new_conversation\",",
      "\t\t\"content\": \"Your natural language response here...\",",
      "\t\t\"store_info\": \x7b",
      "\t\t\t\"user_input\": [\"The key information to store\"],  // Extract only the important facts",
      "\t\t\t\"bot_response\": [\"Confirmation or clarification of the stored info\"]",
      "\t\t\x7d,",
      "\t\t\"new_title\": \"optional: title for new conversation if action is new_conversation\"",
      "\t\x7d" ]

/-- The knowledge lines of the prompt (service.go lines 146-149).
`fmtF` models `fmt.Sprintf`'s `%.2f` rendering of the score. -/
def knowledgeSection (fmtF : ℚ → String) (knowledge : List KnowledgeSearchResult) : String :=
  strConcatMap (fun k =>
    "- " ++ k.content ++ " (relevance: " ++ fmtF k.relevance ++ ")\n") knowledge

/-- The history lines of the prompt (service.go lines 151-154): the loop
walks the newest-first history backwards, so it renders `history.reverse`
oldest-first. -/
def historySection (history : List Msg) : String :=
  strConcatMap (fun m => m.role ++ ": " ++ m.content ++ "\n") history.reverse

/-- The full prompt (service.go lines 146-155). -/
def buildPrompt (fmtF : ℚ → String) (knowledge : List KnowledgeSearchResult)
    (history : List Msg) (msg : Msg) : String :=
  systemPrompt ++ "\n\nRelevant knowledge from database:\n" ++
    knowledgeSection fmtF knowledge ++
    "\n\nConversation history:\n" ++ historySection history ++
    "\nCurrent message:\n" ++ msg.role ++ ": " ++ msg.content ++ "\n\nResponse:"

/-! ## Action Dispatcher (`ProcessMessage`, service.go lines 193-260) -/

/-- The knowledge-entry body rendered by the `store` case (service.go lines
206-215): an indexed loop over `user_input`, with the `Context:` line
guarded by `i < len(BotResponse)`. -/
def storeInfoBody (si : StoreInfo) : String :=
  "Knowledge Entry:\n" ++
    strConcatMap (fun p =>
      "Information: " ++ p.2 ++ "\n" ++
        (if p.1 < si.bot_response.length then
          "Context: " ++ si.bot_response.getD p.1 "" ++ "\n"
        else "")) si.user_input.enum

/-- External collaborators of `llm.Service` and the two `encoding/json`
calls, as explicit functions.  The 30-second deadline on the main completion
call is absorbed into `complete` (a timeout surfaces as an error). -/
structure Env where
  dbSearch : String → Except String (List Candidate)
  parseFloat : String → Option ℚ
  scorer : String → Except String String
  history : Int → Nat → Except String (List Msg)
  complete : String → Except String String
  jsonParse : String → Option LLMResponse
  innerContent : String → Option String
  fmtFloat2 : ℚ → String
  saveMessage : Msg → Except String Msg
  saveKnowledge : String → Int → Except String Unit
  createConversation : String → Except String Conversation

/-- Build the assistant reply and persist it (the shared tail of the
`reply`/`search` cases and, per `fallthrough`, the `store` case).
`SaveMessage` fills in `id`/`createdAt`; the zeroes are the Go zero values
of the freshly constructed `models.Message`. -/
def saveReply (env : Env) (convID : Int) (content : String) : Except String Msg :=
  match env.saveMessage ⟨0, convID, "assistant", content, 0⟩ with
  | .error e => .error ("failed to save message: " ++ e)
  | .ok r => .ok r

/-- The `switch llmResponse.Action` (service.go lines 194-260).  The `store`
case renders and saves the knowledge body, ignores a save failure (it is
only logged), and falls through to the reply handling. -/
def dispatch (env : Env) (msg : Msg) (resp : LLMResponse) : Except String Msg :=
  if resp.action = "reply" then
    saveReply env msg.convID resp.content
  else if resp.action = "store" then
    let content := storeInfoBody resp.store_info
    -- `if err := s.db.SaveToKnowledgeBase(...); err != nil` only logs
    let _ := env.saveKnowledge content msg.convID
    saveReply env msg.convID resp.content
  else if resp.action = "search" then
    saveReply env msg.convID resp.content
  else if resp.action = "new_conversation" then
    match env.createConversation resp.new_title with
    | .error e => .error ("failed to create new conversation: " ++ e)
    | .ok newConv => saveReply env newConv.id resp.content
  else
    .error ("unknown action: " ++ resp.action)

/-- The `knowledge` local of `ProcessMessage` (service.go lines 100-106): the
search result, degraded to the empty list when the search fails. -/
def retrievedKnowledge (env : Env) (query : String) : List KnowledgeSearchResult :=
  match searchKnowledge env.dbSearch env.parseFloat env.scorer query with
  | .ok k => k
  | .error _ => []  -- "Log but don't fail if knowledge search fails"

/-- `Service.ProcessMessage` (service.go lines 98-261).  The outer `Option`
models the Go runtime panic of the quote-stripping step (`none`); the inner
`Except` is the function's `error` result. -/
def processMessage (env : Env) (msg : Msg) : Option (Except String Msg) :=
  let knowledge := retrievedKnowledge env msg.content
  match env.history msg.convID 10 with
  | .error e => some (.error ("failed to get conversation history: " ++ e))
  | .ok history =>
    let prompt := buildPrompt env.fmtFloat2 knowledge history msg
    match env.complete prompt with
    | .error e => some (.error ("failed to generate completion: " ++ e))
    | .ok completion =>
      match interpretResponse (env.jsonParse completion) env.innerContent completion with
      | none => none
      | some resp => some (dispatch env msg resp)

/-- `Handler.HandleMessage` (handlers.go lines 47-99), past its HTTP
decoding: the inbound user message is persisted first, then the saved
message (with its assigned id) is handed to `ProcessMessage`. -/
def handleMessage (env : Env) (convID : Int) (content : String) :
    Except String (Option (Except String Msg)) :=
  match env.saveMessage ⟨0, convID, "user", content, 0⟩ with
  | .error e => .error ("Failed to save message: " ++ e)
  | .ok saved => .ok (processMessage env saved)

/-! ## Store state (`internal/db/sqlite.go`)

Only what claim C5 needs: the three tables as row lists and
`DeleteConversation` (sqlite.go lines 246-269), which runs three explicit
`DELETE` statements in one transaction.  `conversation_id` is nullable in
the `messages` and `knowledge` schemas, hence `Option Int`.  (The schema
declares `ON DELETE SET NULL` for `knowledge.conversation_id`, but the
explicit `DELETE FROM knowledge WHERE conversation_id = ?` removes those
rows before the foreign-key action could ever apply.) -/

/-- A row of the `conversations` table (sqlite.go lines 13-17). -/
structure ConversationRow where
  id : Int
  title : String
  created_at : Int
  deriving DecidableEq, Repr

/-- A row of the `messages` table (sqlite.go lines 19-26). -/
structure MessageRow where
  id : Int
  conversation_id : Option Int
  role : String
  content : String
  created_at : Int
  deriving DecidableEq, Repr

/-- A row of the `knowledge` table (sqlite.go lines 28-34). -/
structure KnowledgeRow where
  id : Int
  content : String
  conversation_id : Option Int
  created_at : Int
  deriving DecidableEq, Repr

/-- The three tables of the SQLite database. -/
structure DBState where
  conversations : List ConversationRow
  messages : List MessageRow
  knowledge : List KnowledgeRow
  deriving DecidableEq, Repr

/-- `Database.DeleteConversation` (sqlite.go lines 246-269): delete the
messages, the knowledge entries, and the conversation row matching `cid`. -/
def deleteConversation (st : DBState) (cid : Int) : DBState :=
  { messages := st.messages.filter fun m => ¬ m.conversation_id = some cid,
    knowledge := st.knowledge.filter fun k => ¬ k.conversation_id = some cid,
    conversations := st.conversations.filter fun c => ¬ c.id = cid }

/-! ## Spec-side definition for the store-action rendering (claim C9) -/

/-- Modelled from the spec's wording for the `store` rendering: "one
Information:/Context: block per pair; if the bot-response list is shorter
than the user-input list, trailing entries omit the context line" — a
lockstep walk over the two lists.  Compared against `storeInfoBody`, the
translation of the code's indexed loop. -/
def infoContextBlocksSpec : List String → List String → String
  | [], _ => ""
  | u :: us, [] =>
      "Information: " ++ u ++ "\n" ++ infoContextBlocksSpec us []
  | u :: us, b :: bs =>
      "Information: " ++ u ++ "\n" ++ "Context: " ++ b ++ "\n" ++
        infoContextBlocksSpec us bs

/-! ## Concrete instantiations used by the witnesses.

Each oracle is annotated with the real-world behaviour it reflects. -/

/-- A store search returning one candidate passage. -/
def dbSearchOne : String → Except String (List Candidate) :=
  fun _ => .ok [⟨"alpha", 1, 0⟩]

/-- A provider that answers every relevance prompt with `0.9`. -/
def scorerNine : String → Except String String := fun _ => .ok "0.9"

/-- `strconv.ParseFloat` on the strings these witnesses use:
`ParseFloat("0.9", 64)` succeeds (value abstracted to `9/10`), and the
non-numeric strings used here make it fail. -/
def pfNine : String → Option ℚ := fun s => if s = "0.9" then some (mkRat 9 10) else none

/-- A scorer whose answer is not a number (`ParseFloat` fails on it). -/
def scorerNaNish : String → Except String String := fun _ => .ok "quite relevant"

/-- A float parser that fails on everything (matches `ParseFloat` on the
strings `scorerNaNish` produces). -/
def pfFail : String → Option ℚ := fun _ => none

/-- A provider that rates every passage `1.5`; `ParseFloat("1.5", 64)`
succeeds with the exact value `3/2`. -/
def scorerOverOne : String → Except String String := fun _ => .ok "1.5"

/-- `strconv.ParseFloat` on `"1.5"`. -/
def pfOverOne : String → Option ℚ := fun s => if s = "1.5" then some (mkRat 3 2) else none

/-- Witness environment for C6: a store that is down, a provider answering
`hello there`, a JSON parser that fails on it (it is not JSON), and a
working message store. -/
def envDown : Env where
  dbSearch := fun _ => .error "store unreachable"
  parseFloat := fun _ => none
  scorer := fun _ => .error "provider unreachable"
  history := fun _ _ => .ok []
  complete := fun _ => .ok "hello there"
  jsonParse := fun _ => none
  innerContent := fun _ => none
  fmtFloat2 := fun _ => ""
  saveMessage := fun m => .ok { m with id := 7 }
  saveKnowledge := fun _ _ => .ok ()
  createConversation := fun t => .ok ⟨9, t, 0⟩

/-- Witness environment for C7: the knowledge write fails, the reply write
succeeds, and the model asks to store a fact. -/
def envStoreFail : Env where
  dbSearch := fun _ => .error "store unreachable"
  parseFloat := fun _ => none
  scorer := fun _ => .error "provider unreachable"
  history := fun _ _ => .ok []
  complete := fun _ => .ok "unparsed completion"
  jsonParse := fun _ => some ⟨"store", "saved!", ⟨["fact A"], ["ctx A"]⟩, ""⟩
  innerContent := fun _ => none
  fmtFloat2 := fun _ => ""
  saveMessage := fun m => .ok { m with id := 8 }
  saveKnowledge := fun _ _ => .error "disk full"
  createConversation := fun t => .ok ⟨9, t, 0⟩

end PadI

namespace PadI

/-! ## Helper lemmas -/

/-- Every result the scoring loop keeps has relevance strictly above the
`0.3` threshold. -/
lemma scoreCandidates_rel_gt (pf : String → Option ℚ)
    (scorer : String → Except String String) (query : String) :
    ∀ (cands : List Candidate) (m : List KnowledgeSearchResult),
      scoreCandidates pf scorer query cands = .ok m →
      ∀ r ∈ m, (0.3 : ℚ) < r.relevance := by
  intro cands
  induction cands with
  | nil =>
      intro m h r hr
      simp only [scoreCandidates] at h
      cases h
      simp at hr
  | cons c rest ih =>
      intro m h r hr
      simp only [scoreCandidates] at h
      split at h
      · exact absurd h (by simp)
      · split at h
        · exact absurd h (by simp)
        · split at h
          · rename_i hrec hgt
            cases h
            rcases List.mem_cons.mp hr with h1 | h1
            · subst h1
              have hq : (0.3 : ℚ) = mkRat 3 10 := by norm_num [mkRat]
              rw [hq]
              exact hgt
            · exact ih _ hrec r h1
          · rename_i hrec hle
            cases h
            exact ih _ hrec r hr

/-- Every result `SearchKnowledge` returns has relevance strictly above
`0.3` (shared by the C2 and C4 theorems). -/
lemma searchKnowledge_mem_gt
    (dbSearch : String → Except String (List Candidate)) (pf : String → Option ℚ)
    (scorer : String → Except String String) (query : String)
    (l : List KnowledgeSearchResult)
    (h : searchKnowledge dbSearch pf scorer query = .ok l) :
    ∀ r ∈ l, (0.3 : ℚ) < r.relevance := by
  unfold searchKnowledge at h
  split at h
  · exact absurd h (by simp)
  · split at h
    · exact absurd h (by simp)
    · rename_i hscore
      cases h
      intro r hr
      rw [List.mem_insertionSort] at hr
      exact scoreCandidates_rel_gt pf scorer query _ _ hscore r hr

/-! ## C2: retrieved results are `> 0.3` and sorted non-increasing -/

/-- C2: for every candidate list returned by the store and every sequence of
scorer outputs, every `KnowledgeSearchResult` returned by `SearchKnowledge`
has relevance strictly greater than `0.3`, and the returned list is sorted
non-increasing by relevance. -/
theorem searchKnowledge_filtered_and_sorted
    (dbSearch : String → Except String (List Candidate)) (pf : String → Option ℚ)
    (scorer : String → Except String String) (query : String)
    (l : List KnowledgeSearchResult)
    (h : searchKnowledge dbSearch pf scorer query = .ok l) :
    (∀ r ∈ l, (0.3 : ℚ) < r.relevance) ∧ l.Sorted relDesc := by
  refine ⟨searchKnowledge_mem_gt dbSearch pf scorer query l h, ?_⟩
  unfold searchKnowledge at h
  split at h
  · exact absurd h (by simp)
  · split at h
    · exact absurd h (by simp)
    · cases h
      exact List.sorted_insertionSort relDesc _

/-- Witness for C2 at a concrete run: one candidate scored `0.9`. -/
theorem searchKnowledge_filtered_and_sorted_witness :
    (∀ r ∈ [(⟨"alpha", mkRat 9 10, 0⟩ : KnowledgeSearchResult)], (0.3 : ℚ) < r.relevance) ∧
      List.Sorted relDesc [(⟨"alpha", mkRat 9 10, 0⟩ : KnowledgeSearchResult)] :=
  searchKnowledge_filtered_and_sorted dbSearchOne pfNine scorerNine "q"
    [⟨"alpha", mkRat 9 10, 0⟩] (by rfl)

/-! ## C4: the scorer does not clamp scores to `[0,1]` -/

/-- C4 counterexample: when the provider's completion is `"1.5"`
(`ParseFloat` succeeds with `3/2`), `SearchKnowledge` returns that score
as-is — a returned `Relevance` strictly above `1`, so the claim that every
returned score lies in `[0,1]` is false. -/
theorem searchKnowledge_relevance_above_one :
    searchKnowledge dbSearchOne pfOverOne scorerOverOne "q" =
      .ok [⟨"alpha", mkRat 3 2, 0⟩] ∧ ¬ ((mkRat 3 2 : ℚ) ≤ 1) := by
  refine ⟨by rfl, ?_⟩
  norm_num [mkRat]

/-- C4 amended: every returned relevance is nonnegative (indeed strictly
above `0.3`), but there is no upper bound — the score is whatever the
completion parses to. -/
theorem searchKnowledge_relevance_nonneg
    (dbSearch : String → Except String (List Candidate)) (pf : String → Option ℚ)
    (scorer : String → Except String String) (query : String)
    (l : List KnowledgeSearchResult)
    (h : searchKnowledge dbSearch pf scorer query = .ok l) :
    ∀ r ∈ l, (0 : ℚ) ≤ r.relevance := by
  intro r hr
  have h3 := (searchKnowledge_mem_gt dbSearch pf scorer query l h) r hr
  have : (0 : ℚ) < 0.3 := by norm_num
  exact le_of_lt (this.trans h3)

/-- Witness for the amended C4 at a concrete run and result. -/
theorem searchKnowledge_relevance_nonneg_witness :
    (0 : ℚ) ≤ (⟨"alpha", mkRat 9 10, 0⟩ : KnowledgeSearchResult).relevance :=
  searchKnowledge_relevance_nonneg dbSearchOne pfNine scorerNine "q"
    [⟨"alpha", mkRat 9 10, 0⟩] (by rfl) ⟨"alpha", mkRat 9 10, 0⟩ (by decide)

/-! ## C8: unparseable relevance judgments score `0.0` and are dropped -/

/-- C8: if the scorer's completion for a candidate is returned without error
but does not parse as a number, processing that candidate raises no error
and contributes nothing: the result for `c :: rest` is exactly the result
for `rest`. -/
theorem scoreCandidates_unparseable_skipped
    (pf : String → Option ℚ) (scorer : String → Except String String)
    (query : String) (c : Candidate) (rest : List Candidate) (s : String)
    (hs : scorer (relevancePrompt query c.content) = .ok s)
    (hp : pf (goTrimSpace s) = none) :
    scoreCandidates pf scorer query (c :: rest) = scoreCandidates pf scorer query rest := by
  simp only [scoreCandidates, hs, hp, Option.getD_none]
  cases hrec : scoreCandidates pf scorer query rest with
  | error e => rfl
  | ok tail =>
      have : ¬ (mkRat 3 10 < (0 : ℚ)) := by norm_num [mkRat]
      simp [this]

/-- Witness for C8: a candidate judged `"quite relevant"` (not a number) is
silently dropped. -/
theorem scoreCandidates_unparseable_skipped_witness :
    pfFail (goTrimSpace "quite relevant") = none ∧
      scoreCandidates pfFail scorerNaNish "q" [⟨"alpha", 1, 0⟩] =
        scoreCandidates pfFail scorerNaNish "q" [] :=
  ⟨rfl, scoreCandidates_unparseable_skipped pfFail scorerNaNish "q"
    ⟨"alpha", 1, 0⟩ [] "quite relevant" rfl rfl⟩

/-! ## C1: the parse-failure fallback is not verbatim -/

/-- C1 counterexample: the completion `"  hi  "` is not valid JSON, so
`json.Unmarshal` fails (`parsed = none`); the interpreter falls back to a
`reply`, but the final cleanup still trims the content, so the returned
content `"hi"` differs from the raw completion text. -/
theorem interpret_fallback_not_verbatim :
    interpretResponse none (fun _ => none) "  hi  " =
      some ⟨"reply", "hi", ⟨[], []⟩, ""⟩ ∧ ("hi" : String) ≠ "  hi  " :=
  ⟨by decide, by decide⟩

/-- C1 amended, in full: on a JSON parse failure the interpreter's result is
exactly the raw completion run through the shared cleanup — trim the
surrounding whitespace, then strip one layer of surrounding quotes — wrapped
as action `reply` with empty `store_info`/`new_title`; when the cleanup
panics (trimmed text a single `"`), no `InterpretedResponse` is produced.
In particular the content equals the raw text unchanged exactly when the
raw text is already trimmed and not quote-wrapped, and a quote-wrapped
completion such as `"hi"` (with the quotes) comes back as `hi`. -/
theorem interpret_fallback_reply :
    (∀ (inner : String → Option String) (completion : String),
      interpretResponse none inner completion =
        (stripSurroundingQuotes (goTrimSpace completion)).map
          (fun c => ⟨"reply", c, ⟨[], []⟩, ""⟩)) ∧
    interpretResponse none (fun _ => none) "\"hi\"" =
      some ⟨"reply", "hi", ⟨[], []⟩, ""⟩ := by
  constructor
  · intro inner completion
    cases h : stripSurroundingQuotes (goTrimSpace completion) <;>
      simp [interpretResponse, h]
  · decide

/-! ## C3: the cleanup pipeline is not total — it panics on `"` -/

/-- C3: the completion consisting of the single character `"` is not valid
JSON (`json.Unmarshal` fails, so the fallback makes it the content); it is
its own trim, satisfies both the `HasPrefix` and `HasSuffix` quote checks,
and the stripping slice `content[1:0]` is a Go runtime panic (slice bounds
out of range) — the pipeline does not produce an `InterpretedResponse`. -/
theorem interpret_panics_on_single_quote :
    interpretResponse none (fun _ => none) "\"" = none := by decide

/-! ## C5: deleting a conversation deletes its knowledge entries -/

/-- C5: contrary to the schema's `ON DELETE SET NULL` intent,
`DeleteConversation` runs `DELETE FROM knowledge WHERE conversation_id = ?`:
for a database with one conversation (id 1) owning one knowledge entry,
deleting conversation 1 removes the knowledge row instead of detaching it. -/
theorem deleteConversation_removes_knowledge :
    (deleteConversation ⟨[⟨1, "title", 0⟩], [], [⟨1, "a fact", some 1, 0⟩]⟩ 1).knowledge
      = [] := by decide

/-! ## C6: knowledge-retrieval failure degrades to an empty list -/

/-- C6: when `SearchKnowledge` fails (store error or a scoring error), the
turn is not aborted: the completion provider is consulted on the prompt
built from the *empty* knowledge list (so the prompt carries no knowledge
lines), and the turn still produces and persists a reply.  The `complete`
oracle is constrained only at the empty-knowledge prompt, so the conclusion
shows that exactly this prompt is sent. -/
theorem retrieval_failure_degrades
    (env : Env) (msg : Msg) (e : String) (hist : List Msg) (comp : String)
    (resp : LLMResponse) (r' : Msg)
    (hsearch : searchKnowledge env.dbSearch env.parseFloat env.scorer msg.content = .error e)
    (hhist : env.history msg.convID 10 = .ok hist)
    (hcomp : env.complete (buildPrompt env.fmtFloat2 [] hist msg) = .ok comp)
    (hint : interpretResponse (env.jsonParse comp) env.innerContent comp = some resp)
    (haction : resp.action = "reply")
    (hsave : env.saveMessage ⟨0, msg.convID, "assistant", resp.content, 0⟩ = .ok r') :
    processMessage env msg = some (.ok r') := by
  have hk : retrievedKnowledge env msg.content = [] := by
    unfold retrievedKnowledge
    rw [hsearch]
  simp only [processMessage, hk, hhist, hcomp, hint, dispatch, haction, if_pos,
    saveReply, hsave]

/-- Witness for C6: with the store down the turn still replies. -/
theorem retrieval_failure_degrades_witness :
    processMessage envDown ⟨1, 5, "user", "what is alpha", 0⟩ =
      some (.ok ⟨7, 5, "assistant", "hello there", 0⟩) :=
  retrieval_failure_degrades envDown ⟨1, 5, "user", "what is alpha", 0⟩
    "failed to search knowledge base: store unreachable" [] "hello there"
    ⟨"reply", "hello there", ⟨[], []⟩, ""⟩ ⟨7, 5, "assistant", "hello there", 0⟩
    rfl rfl rfl (by decide) rfl rfl

/-! ## C7: a failing knowledge write does not abort a `store` turn -/

/-- C7: on action `store`, the result of `SaveToKnowledgeBase` is only
logged; whatever it returns (here: an error), the dispatcher still persists
the assistant reply on the current conversation and returns it, and the turn
errors only if that reply persistence itself fails. -/
theorem store_failure_nonfatal
    (env : Env) (msg : Msg) (hist : List Msg) (comp : String)
    (resp : LLMResponse) (e : String)
    (hhist : env.history msg.convID 10 = .ok hist)
    (hcomp : env.complete
      (buildPrompt env.fmtFloat2 (retrievedKnowledge env msg.content) hist msg) = .ok comp)
    (hint : interpretResponse (env.jsonParse comp) env.innerContent comp = some resp)
    (haction : resp.action = "store")
    (_hksave : env.saveKnowledge (storeInfoBody resp.store_info) msg.convID = .error e) :
    processMessage env msg =
      some (match env.saveMessage ⟨0, msg.convID, "assistant", resp.content, 0⟩ with
        | .ok r' => .ok r'
        | .error e2 => .error ("failed to save message: " ++ e2)) := by
  simp only [processMessage, hhist, hcomp, hint, dispatch, haction, saveReply,
    eq_false (show ¬ (("store" : String) = "reply") by decide),
    eq_self_iff_true, if_true, if_false]
  cases env.saveMessage ⟨0, msg.convID, "assistant", resp.content, 0⟩ <;> rfl

/-- Witness for C7: the knowledge write fails with `disk full`, yet the
turn returns the persisted assistant reply. -/
theorem store_failure_nonfatal_witness :
    processMessage envStoreFail ⟨1, 5, "user", "remember fact A", 0⟩ =
      some (.ok ⟨8, 5, "assistant", "saved!", 0⟩) :=
  store_failure_nonfatal envStoreFail ⟨1, 5, "user", "remember fact A", 0⟩
    [] "unparsed completion" ⟨"store", "saved!", ⟨["fact A"], ["ctx A"]⟩, ""⟩
    "disk full" rfl rfl (by decide) rfl rfl

/-! ## C9: the rendered knowledge body pairs facts with contexts -/

/-- The indexed loop of the `store` case walks `user_input` with `enumFrom`,
emitting a `Context:` line while the index is still inside `bot_response`;
that equals the lockstep walk of the two lists (with the already-consumed
prefix of `bot_response` dropped). -/
lemma strConcatMap_enumFrom_blocks (bi : List String) :
    ∀ (ui : List String) (n : Nat),
      strConcatMap (fun p =>
        "Information: " ++ p.2 ++ "\n" ++
          (if p.1 < bi.length then "Context: " ++ bi.getD p.1 "" ++ "\n" else ""))
        (List.enumFrom n ui) =
      infoContextBlocksSpec ui (bi.drop n) := by
  intro ui
  induction ui with
  | nil => intro n; simp [List.enumFrom, strConcatMap, infoContextBlocksSpec]
  | cons u us ih =>
      intro n
      simp only [List.enumFrom, strConcatMap]
      rw [ih (n + 1)]
      by_cases hn : n < bi.length
      · rw [List.drop_eq_getElem_cons hn]
        simp only [infoContextBlocksSpec, if_pos hn, List.getD_eq_getElem bi "" hn]
        apply String.ext
        simp [String.data_append, List.append_assoc]
      · have hle : bi.length ≤ n := le_of_not_lt hn
        rw [List.drop_eq_nil_of_le hle, List.drop_eq_nil_of_le (hle.trans (Nat.le_succ n))]
        simp [infoContextBlocksSpec, if_neg hn]

/-- C9: the knowledge body is `Knowledge Entry:` followed by one
`Information:` line per `user_input[i]`, each immediately followed by a
`Context:` line exactly when `i < |bot_response|`; in particular
`user_input = [fact A, fact B]`, `bot_response = [ctx A]` yields two
`Information:` lines and exactly one `Context:` line, for fact A only. -/
theorem storeInfoBody_pairs :
    (∀ ui bi, storeInfoBody ⟨ui, bi⟩ =
      "Knowledge Entry:\n" ++ infoContextBlocksSpec ui bi) ∧
    storeInfoBody ⟨["fact A", "fact B"], ["ctx A"]⟩ =
      "Knowledge Entry:\nInformation: fact A\nContext: ctx A\nInformation: fact B\n" := by
  constructor
  · intro ui bi
    unfold storeInfoBody List.enum
    rw [strConcatMap_enumFrom_blocks bi ui 0]
    rfl
  · decide

/-! ## C10: the inbound message appears twice in the prompt -/

/-- A builder loop writes `f a` somewhere in its output for every element
`a` of the list. -/
lemma strConcatMap_mem_split (f : α → String) (a : α) :
    ∀ l : List α, a ∈ l → ∃ x y, strConcatMap f l = x ++ f a ++ y := by
  intro l
  induction l with
  | nil => intro h; cases h
  | cons b bl ih =>
      intro h
      rcases List.mem_cons.mp h with h1 | h1
      · subst h1
        refine ⟨"", strConcatMap f bl, ?_⟩
        apply String.ext
        simp [strConcatMap, String.data_append]
      · obtain ⟨x, y, hxy⟩ := ih h1
        refine ⟨f b ++ x, y, ?_⟩
        simp only [strConcatMap, hxy]
        apply String.ext
        simp [String.data_append, List.append_assoc]

/-- C10: `HandleMessage` persists the inbound user message before calling
`ProcessMessage` (handlers.go lines 75, 82), which then fetches history
(limit 10, newest-first) from the same store; assuming the returned history
therefore contains the just-saved copy of the inbound message, the assembled
prompt contains the inbound message's rendered line twice: once in the
conversation-history section and once in the current-message section. -/
theorem prompt_contains_inbound_twice
    (fmtF : ℚ → String) (kl : List KnowledgeSearchResult) (hist : List Msg)
    (msg saved : Msg) (hmem : saved ∈ hist)
    (hrole : saved.role = msg.role) (hcontent : saved.content = msg.content) :
    ∃ a b c : String,
      buildPrompt fmtF kl hist msg =
        a ++ (msg.role ++ ": " ++ msg.content ++ "\n") ++ b ++
          (msg.role ++ ": " ++ msg.content ++ "\n") ++ c := by
  have hmem' : saved ∈ hist.reverse := List.mem_reverse.mpr hmem
  obtain ⟨x, y, hxy⟩ :=
    strConcatMap_mem_split (fun m : Msg => m.role ++ ": " ++ m.content ++ "\n")
      saved hist.reverse hmem'
  refine ⟨systemPrompt ++ "\n\nRelevant knowledge from database:\n" ++
      knowledgeSection fmtF kl ++ "\n\nConversation history:\n" ++ x,
    y ++ "\nCurrent message:\n", "\nResponse:", ?_⟩
  unfold buildPrompt historySection
  simp only [hxy, hrole, hcontent]
  apply String.ext
  simp [String.data_append, List.append_assoc]

/-- Witness for C10: a one-element history holding the saved copy of the
inbound message. -/
theorem prompt_contains_inbound_twice_witness :
    (⟨1, 5, "user", "hi", 0⟩ : Msg) ∈ [(⟨1, 5, "user", "hi", 0⟩ : Msg)] ∧
      ∃ a b c : String,
        buildPrompt (fun _ => "") [] [⟨1, 5, "user", "hi", 0⟩] ⟨1, 5, "user", "hi", 0⟩ =
          a ++ ("user" ++ ": " ++ "hi" ++ "\n") ++ b ++
            ("user" ++ ": " ++ "hi" ++ "\n") ++ c :=
  ⟨by decide,
    prompt_contains_inbound_twice (fun _ => "") [] [⟨1, 5, "user", "hi", 0⟩]
      ⟨1, 5, "user", "hi", 0⟩ ⟨1, 5, "user", "hi", 0⟩ (by decide) rfl rfl⟩

end PadI
